import Mathlib

/-!
Verification of the COSA thermostat integration (`custom_components/cosa`).

The development shallowly embeds the API client (`api.py`) and the polling
coordinator's refresh logic (`climate.py`).  JSON values are modelled by the
inductive `Cosa.JValue`; Python dictionaries become association lists; each
client coroutine becomes a pure function from the received HTTP response
(status code plus parsed body) to a result that records which exception, if
any, the Python code raises.  Python-level semantics that matter here —
truthiness, `dict.get`, `==` against numeric literals, `len`, hashability of
dictionary keys, membership / indexing `TypeError`s — are modelled explicitly.
-/

namespace Cosa

/-- JSON values as delivered by the COSA cloud API.  Numbers are modelled as
rationals (every JSON numeric literal appearing in the code is exactly
representable); objects are association lists with distinct string keys. -/
inductive JValue where
  | jnull
  | jbool (b : Bool)
  | jnum (q : ℚ)
  | jstr (s : String)
  | jarr (elems : List JValue)
  | jobj (fields : List (String × JValue))

/-- Python dictionary lookup (`d[k]` when present): first binding of the key. -/
def jlookup (fields : List (String × JValue)) (key : String) : Option JValue :=
  fields.lookup key

/-- Python `d.get(key)`: `None` (here `jnull`) when the key is absent. -/
def pyGet (fields : List (String × JValue)) (key : String) : JValue :=
  (jlookup fields key).getD .jnull

/-- Python `d.get(key, default)`. -/
def pyGetD (fields : List (String × JValue)) (key : String) (dflt : JValue) : JValue :=
  (jlookup fields key).getD dflt

/-- Python `key in d`. -/
def hasKey (fields : List (String × JValue)) (key : String) : Bool :=
  (jlookup fields key).isSome

/-- Python `v is None`. -/
def JValue.isNull : JValue → Bool
  | .jnull => true
  | _ => false

/-- Python `v == n` for a numeric literal `n`: numbers compare by value,
`True`/`False` compare equal to `1`/`0`, everything else is unequal. -/
def pyEqNum : JValue → ℚ → Bool
  | .jnum q, n => decide (q = n)
  | .jbool b, n => (b && decide (n = 1)) || (!b && decide (n = 0))
  | _, _ => false

/-- Python `d.get(key) == n`: `None == n` is `False`. -/
def pyOptEqNum : Option JValue → ℚ → Bool
  | some v, n => pyEqNum v n
  | none, _ => false

/-- Python truthiness of a JSON-derived value. -/
def pyTruthy : JValue → Bool
  | .jnull => false
  | .jbool b => b
  | .jnum q => !(decide (q = 0))
  | .jstr s => !(decide (s = ""))
  | .jarr elems => !elems.isEmpty
  | .jobj fields => !fields.isEmpty

/-- Python `a or b`. -/
def pyOr (a b : JValue) : JValue :=
  if pyTruthy a then a else b

/-- Python `len(v)`: defined for strings, lists and dicts, a `TypeError`
(`none`) otherwise. -/
def pyLen : JValue → Option Nat
  | .jstr s => some s.length
  | .jarr elems => some elems.length
  | .jobj fields => some fields.length
  | _ => none

/-- Python `isinstance(data, dict) and data.get("ok") == 0` — the in-body failure
flag shared by every operation. -/
def okFlagZero : JValue → Bool
  | .jobj fields => pyOptEqNum (jlookup fields "ok") 0
  | _ => false

/-- Python `data.get("code", "unknown")` — the in-body error code with its string
default. -/
def errorCode (fields : List (String × JValue)) : JValue :=
  (jlookup fields "code").getD (.jstr "unknown")

/-- The outcome of one client coroutine: a returned value, a raised
`CosaAuthError`, a raised plain `CosaAPIError`, or an exception outside the
`CosaAPIError` hierarchy (`TypeError` / `AttributeError` / a JSON decode
error), which no handler in this integration catches. -/
inductive ApiResult (α : Type) where
  | ok (a : α)
  | authError
  | apiError
  | crash
deriving DecidableEq

/-- What the transport delivered for one HTTP exchange: either a connection
level failure (`aiohttp.ClientError`) or a response with its status code and
parsed JSON body (`none` when the body cannot be parsed as JSON). -/
inductive HttpResult where
  | netError
  | response (status : Nat) (body : Option JValue)

/-- The candidate token field names probed by `CosaAPI._extract_token`, in
source order. -/
def tokenKeys : List String := ["authtoken", "authToken", "token", "accessToken", "access_token"]

/-- One probe of `_extract_token`: `key in data and isinstance(data[key], str)`
on a dict, yielding the string when both hold. -/
def lookupStr (fields : List (String × JValue)) (key : String) : Option String :=
  match jlookup fields key with
  | some (.jstr s) => some s
  | _ => none

/-- Model of `CosaAPI._extract_token` on a dict argument: probe the candidate keys at
top level in order, then — when a dict-valued `data` wrapper exists — probe
the same keys inside it. -/
def extractTokenObj (fields : List (String × JValue)) : Option String :=
  match tokenKeys.findSome? (lookupStr fields) with
  | some t => some t
  | none =>
    match jlookup fields "data" with
    | some (.jobj inner) => tokenKeys.findSome? (lookupStr inner)
    | _ => none

/-- Python `needle in hay` for strings: substring test. -/
def substrOf (needle hay : String) : Bool :=
  (List.range (hay.length + 1)).any (fun i => needle.toList.isPrefixOf (hay.toList.drop i))

/-- Python `k in xs` for a list `xs` and string `k`: some element compares
equal to `k` (only equal strings do). -/
def listHasStr (elems : List JValue) (k : String) : Bool :=
  elems.any (fun v => match v with | .jstr s => decide (s = k) | _ => false)

/-- Model of `CosaAPI._extract_token` on an arbitrary parsed body, duck-typed as in
Python: on a dict it searches as `extractTokenObj`; on a string, `key in data`
is a substring test and a hit makes the subsequent `data[key]` raise
`TypeError`; on a list, membership followed by string indexing likewise raises;
on any other value `key in data` itself raises `TypeError`. -/
def extractToken : JValue → Except Unit (Option String)
  | .jobj fields => .ok (extractTokenObj fields)
  | .jstr s =>
    if (tokenKeys ++ ["data"]).any (fun k => substrOf k s) then .error () else .ok none
  | .jarr elems =>
    if (tokenKeys ++ ["data"]).any (fun k => listHasStr elems k) then .error () else .ok none
  | _ => .error ()

/-- Lines 121-127 of `api.py`: `token = self._extract_token(data); if not
token: raise CosaAPIError(...)` — both `None` and the empty string are falsy,
so only a non-empty extracted string is returned. -/
def tokenOutcome : Option String → ApiResult String
  | some t => if t = "" then .apiError else .ok t
  | none => .apiError

/-- Model of `CosaAPI.login`, as a function of the delivered HTTP exchange.  401 maps
to `CosaAuthError`; a 200 body failing to parse maps to `CosaAPIError`; a 200
dict body with `ok == 0` maps to `CosaAuthError` when `code == 111` and to
`CosaAPIError` otherwise; a successful 200 body yields the extracted token or
`CosaAPIError` when extraction finds nothing; any other status and transport
errors map to `CosaAPIError`. -/
def login (resp : HttpResult) : ApiResult String :=
  match resp with
  | .netError => .apiError
  | .response status body =>
    if status = 401 then .authError
    else if status = 200 then
      match body with
      | none => .apiError
      | some (.jobj fields) =>
        if pyOptEqNum (jlookup fields "ok") 0 then
          if pyEqNum (errorCode fields) 111 then .authError else .apiError
        else tokenOutcome (extractTokenObj fields)
      | some other =>
        match extractToken other with
        | .error _ => .crash
        | .ok t => tokenOutcome t
    else .apiError

/-- Model of `CosaAPI.get_endpoints`, as a function of the delivered HTTP exchange.
After classification, `data.get("endpoints", [])` is evaluated (an
`AttributeError` on a non-dict body) and the debug log line calls
`len(endpoints)` (a `TypeError` on an unsized value) before the value is
returned unchanged. -/
def get_endpoints (resp : HttpResult) : ApiResult JValue :=
  match resp with
  | .netError => .apiError
  | .response status body =>
    if status = 401 then .authError
    else if status ≠ 200 then .apiError
    else
      match body with
      | none => .crash
      | some data =>
        if okFlagZero data then .apiError
        else
          match data with
          | .jobj fields =>
            let endpoints := (jlookup fields "endpoints").getD (.jarr [])
            match pyLen endpoints with
            | some _ => .ok endpoints
            | none => .crash
          | _ => .crash

/-- Model of `CosaAPI.get_endpoint_detail`, as a function of the delivered HTTP
exchange: same classification as `get_endpoints`, then
`data.get("endpoint", data)`. -/
def get_endpoint_detail (resp : HttpResult) : ApiResult JValue :=
  match resp with
  | .netError => .apiError
  | .response status body =>
    if status = 401 then .authError
    else if status ≠ 200 then .apiError
    else
      match body with
      | none => .crash
      | some data =>
        if okFlagZero data then .apiError
        else
          match data with
          | .jobj fields => .ok ((jlookup fields "endpoint").getD (.jobj fields))
          | _ => .crash

/-- The response classification shared by `set_mode` and
`set_target_temperatures`: 401, non-200, the `ok == 0` flag, then `True`. -/
def setCallResult (resp : HttpResult) : ApiResult Bool :=
  match resp with
  | .netError => .apiError
  | .response status body =>
    if status = 401 then .authError
    else if status ≠ 200 then .apiError
    else
      match body with
      | none => .crash
      | some data => if okFlagZero data then .apiError else .ok true

/-- One invocation of `CosaAPI.set_mode` or `CosaAPI.set_target_temperatures`:
the JSON payload it posts, and its outcome. -/
structure SetCall where
  payload : List (String × JValue)
  result : ApiResult Bool

/-- Model of `CosaAPI.set_mode`: the payload always carries the endpoint id and the
mode, and carries `option` exactly when the argument is truthy (provided and
non-empty); on success the call returns `True`. -/
def set_mode (endpoint_id mode : String) (opt : Option String) (resp : HttpResult) : SetCall :=
  let base := [("endpoint", JValue.jstr endpoint_id), ("mode", JValue.jstr mode)]
  let payload :=
    match opt with
    | some s => if s = "" then base else base ++ [("option", JValue.jstr s)]
    | none => base
  ⟨payload, setCallResult resp⟩

/-- Model of `CosaAPI.set_target_temperatures`: the payload always carries the endpoint
id and all four setpoints grouped under `targetTemperatures`; on success the
call returns `True`. -/
def set_target_temperatures (endpoint_id : String) (home away sleep custom : ℚ)
    (resp : HttpResult) : SetCall :=
  ⟨[("endpoint", JValue.jstr endpoint_id),
    ("targetTemperatures", JValue.jobj
      [("home", .jnum home), ("away", .jnum away),
       ("sleep", .jnum sleep), ("custom", .jnum custom)])],
   setCallResult resp⟩

/-- Python `d.get(key, default)` where the key is an arbitrary value: a list
or dict key is unhashable and raises `TypeError`; any other non-string key is
hashable but never equals one of the string keys used here, so the default is
returned. -/
def pyDictGetKey (fields : List (String × JValue)) (key : JValue) (dflt : JValue) :
    Except Unit JValue :=
  match key with
  | .jarr _ => .error ()
  | .jobj _ => .error ()
  | .jstr s => .ok ((jlookup fields s).getD dflt)
  | _ => .ok dflt

/-- The normalized snapshot dict built by `extract_endpoint_state`. -/
structure EndpointState where
  endpoint_id : JValue
  name : JValue
  temperature : JValue
  humidity : JValue
  target_temperature : JValue
  mode : JValue
  option : JValue
  combi_state : JValue
  is_connected : JValue
  operation_mode : JValue
  target_temperatures : List (String × JValue)

/-- The snapshot dict literal built at the end of `extract_endpoint_state`. -/
def mkEndpointState (endpoint : List (String × JValue)) (mode opt current_target : JValue)
    (target_temps : List (String × JValue)) : EndpointState :=
  { endpoint_id := pyOr (pyGet endpoint "id") (pyGet endpoint "_id"),
    name := pyGetD endpoint "name" (.jstr "COSA Termostat"),
    temperature := pyGet endpoint "temperature",
    humidity := pyGet endpoint "humidity",
    target_temperature := current_target,
    mode := mode,
    option := opt,
    combi_state := pyGetD endpoint "combiState" (.jstr "off"),
    is_connected := pyGetD endpoint "isConnected" (.jbool false),
    operation_mode := pyGetD endpoint "operationMode" (.jstr "heating"),
    target_temperatures := target_temps }

/-- Model of `extract_endpoint_state` (the module-level function of `api.py`): normalize a
raw device record.  The `target_temps.get(option, 20.0)` fallback raises
`TypeError` when the record's `option` is an unhashable value, hence the
`Except`. -/
def extract_endpoint_state (endpoint : List (String × JValue)) :
    Except Unit EndpointState :=
  let mode := pyGetD endpoint "mode" (.jstr "manual")
  let opt := pyGetD endpoint "option" (.jstr "home")
  let target_temps : List (String × JValue) :=
    if hasKey endpoint "homeTemperature" then
      [("home", pyGetD endpoint "homeTemperature" (.jnum 20)),
       ("away", pyGetD endpoint "awayTemperature" (.jnum 15)),
       ("sleep", pyGetD endpoint "sleepTemperature" (.jnum 18)),
       ("custom", pyGetD endpoint "customTemperature" (.jnum 20))]
    else
      [("home", .jnum 20), ("away", .jnum 15), ("sleep", .jnum 18), ("custom", .jnum 20)]
  let ct0 := pyGet endpoint "targetTemperature"
  (if ct0.isNull then pyDictGetKey target_temps opt (.jnum 20) else .ok ct0).map
    (fun current_target => mkEndpointState endpoint mode opt current_target target_temps)

/-! ### The polling coordinator (`climate.py`)

`CosaCoordinator._async_update_data` calls `self._api.get_endpoint_detail`
inside a `try`; on `CosaAuthError` it calls `self._api.login(self._email,
self._password)` once and then evaluates `login_result.get("ok")`.
`CosaAPI.login` returns a `str`, which has no `get` attribute, so when the
re-login succeeds the handler raises `AttributeError`; when the re-login
itself raises, the exception escapes the handler uncaught (an `except` clause
of the same `try` does not cover its sibling handlers).  `except CosaAPIError`
wraps other API failures into `UpdateFailed`.  When a `place_id` is
configured, the success path calls `self._api.get_forecast`, a method that
does not exist on `CosaAPI`, raising `AttributeError`. -/

/-- How one refresh cycle of `CosaCoordinator._async_update_data` terminates. -/
inductive RefreshOutcome where
  | success
  | updateFailed
  | uncaughtAuth
  | uncaughtApi
  | crash
deriving DecidableEq

/-- One refresh cycle: its outcome, the number of `CosaAPI.login` calls it
made and the number of `CosaAPI.get_endpoint_detail` calls it made. -/
structure RefreshRun where
  outcome : RefreshOutcome
  loginCalls : Nat
  detailCalls : Nat
deriving DecidableEq

/-- Model of `CosaCoordinator._async_update_data`, as a function of the configured
`place_id` and the HTTP exchanges delivered for the detail call and for the
re-login call (the call sites pass `self._endpoint_id` and `self._token` in
swapped positions relative to `CosaAPI`'s signatures, which does not affect
how the delivered response is classified). -/
def async_update_data (place_id : Option String) (detailResp loginResp : HttpResult) :
    RefreshRun :=
  match get_endpoint_detail detailResp with
  | .ok _ =>
    match place_id with
    | some _ => ⟨.crash, 0, 1⟩
    | none => ⟨.success, 0, 1⟩
  | .authError =>
    match login loginResp with
    | .ok _ => ⟨.crash, 1, 1⟩
    | .authError => ⟨.uncaughtAuth, 1, 1⟩
    | .apiError => ⟨.uncaughtApi, 1, 1⟩
    | .crash => ⟨.crash, 1, 1⟩
  | .apiError => ⟨.updateFailed, 0, 1⟩
  | .crash => ⟨.crash, 0, 1⟩

/-! ### The exception class hierarchy (`api.py` lines 38-45)

`class CosaAPIError(Exception)` and `class CosaAuthError(CosaAPIError)`. -/

/-- The Python exception classes relevant to the client. -/
inductive PyClass where
  | exceptionCls
  | cosaAPIError
  | cosaAuthError
deriving DecidableEq

/-- The method resolution order of each class, read off the two class
declarations: `CosaAuthError <: CosaAPIError <: Exception`. -/
def superclasses : PyClass → List PyClass
  | .exceptionCls => [.exceptionCls]
  | .cosaAPIError => [.cosaAPIError, .exceptionCls]
  | .cosaAuthError => [.cosaAuthError, .cosaAPIError, .exceptionCls]

/-- An `except H` clause catches an instance of class `raised` exactly when `H` is a
(reflexive) superclass of `raised`. -/
def catches (handler raised : PyClass) : Bool :=
  handler ∈ superclasses raised

/-- A `try` statement dispatches a raised exception to the first `except`
clause whose class catches it. -/
def first_matching_handler (raised : PyClass) (handlers : List PyClass) : Option Nat :=
  handlers.findIdx? (fun h => catches h raised)

/-! ### The token search locations

`_extract_token` probes ten locations: the five candidate keys at top level
and, when a dict-valued `data` wrapper is present, the same five keys inside
it.  `tokenSlots` lists, in probe order, the string found at each location
(`none` when the location holds no string). -/

/-- The five nested probe locations: empty unless the body has a dict-valued
`data` field. -/
def nestedSlots (fields : List (String × JValue)) : List (Option String) :=
  match jlookup fields "data" with
  | some (.jobj inner) => tokenKeys.map (lookupStr inner)
  | _ => tokenKeys.map (fun _ => none)

/-- All ten probe locations of `_extract_token`, in probe order. -/
def tokenSlots (fields : List (String × JValue)) : List (Option String) :=
  tokenKeys.map (lookupStr fields) ++ nestedSlots fields

theorem findSome?_id_of_reduceOption_singleton {α : Type} :
    ∀ (l : List (Option α)) (s : α), l.reduceOption = [s] → l.findSome? id = some s := by
  intro l
  induction l with
  | nil => intro s h; simp [List.reduceOption] at h
  | cons a t ih =>
    intro s h
    cases a with
    | none =>
      rw [List.reduceOption_cons_of_none] at h
      simpa using ih s h
    | some x =>
      rw [List.reduceOption_cons_of_some] at h
      simp only [List.cons.injEq] at h
      simp [h.1]

theorem findSome?_id_of_reduceOption_nil {α : Type} :
    ∀ l : List (Option α), l.reduceOption = [] → l.findSome? id = none := by
  intro l
  induction l with
  | nil => intro _; rfl
  | cons a t ih =>
    intro h
    cases a with
    | none =>
      rw [List.reduceOption_cons_of_none] at h
      simpa using ih h
    | some x => rw [List.reduceOption_cons_of_some] at h; simp at h

/-- On a dict, `_extract_token` is exactly the first hit of the ordered
ten-location probe. -/
theorem extractTokenObj_eq_findSome (fields : List (String × JValue)) :
    extractTokenObj fields = (tokenSlots fields).findSome? id := by
  have hnone : (tokenKeys.map (fun _ => (none : Option String))).findSome? id = none := rfl
  unfold extractTokenObj tokenSlots nestedSlots
  rw [List.findSome?_append, List.findSome?_map]
  simp only [Function.id_comp]
  rcases h : jlookup fields "data" with _ | v
  · cases h' : tokenKeys.findSome? (lookupStr fields) <;> simp [h, h', hnone, Option.or]
  · cases v <;> cases h' : tokenKeys.findSome? (lookupStr fields) <;>
      simp [h, h', hnone, Option.or, List.findSome?_map, Function.id_comp]

/-! ## Claim theorems -/

/-- C1 (amended): a 401 raises `CosaAuthError` in every operation; a 200 dict
body with `ok == 0` and `code == 111` raises `CosaAuthError` in `login`, but
in `get_endpoints`, `get_endpoint_detail`, `set_mode` and
`set_target_temperatures` an `ok == 0` body raises plain `CosaAPIError`,
regardless of the code. -/
theorem auth_error_classification (body : Option JValue) (fields : List (String × JValue))
    (e m : String) (o : Option String) (th ta ts tc : ℚ)
    (hok0 : pyOptEqNum (jlookup fields "ok") 0 = true) :
    login (.response 401 body) = .authError ∧
    get_endpoints (.response 401 body) = .authError ∧
    get_endpoint_detail (.response 401 body) = .authError ∧
    (set_mode e m o (.response 401 body)).result = .authError ∧
    (set_target_temperatures e th ta ts tc (.response 401 body)).result = .authError ∧
    (pyEqNum (errorCode fields) 111 = true →
      login (.response 200 (some (.jobj fields))) = .authError) ∧
    get_endpoints (.response 200 (some (.jobj fields))) = .apiError ∧
    get_endpoint_detail (.response 200 (some (.jobj fields))) = .apiError ∧
    (set_mode e m o (.response 200 (some (.jobj fields)))).result = .apiError ∧
    (set_target_temperatures e th ta ts tc (.response 200 (some (.jobj fields)))).result
      = .apiError := by
  refine ⟨rfl, rfl, rfl, rfl, rfl, ?_, ?_, ?_, ?_, ?_⟩
  · intro hcode; simp [login, hok0, hcode]
  · simp [get_endpoints, okFlagZero, hok0]
  · simp [get_endpoint_detail, okFlagZero, hok0]
  · simp [set_mode, setCallResult, okFlagZero, hok0]
  · simp [set_target_temperatures, setCallResult, okFlagZero, hok0]

/-- Witness for C1: the amended classification evaluated on concrete
exchanges. -/
theorem auth_error_classification_witness :
    login (.response 401 none) = .authError ∧
    get_endpoints (.response 401 none) = .authError ∧
    get_endpoint_detail (.response 401 none) = .authError ∧
    (set_mode "endp1" "manual" (some "home") (.response 401 none)).result = .authError ∧
    (set_target_temperatures "endp1" 21 16 18 20 (.response 401 none)).result = .authError ∧
    login (.response 200 (some (.jobj [("ok", .jnum 0), ("code", .jnum 111)]))) = .authError ∧
    get_endpoints (.response 200 (some (.jobj [("ok", .jnum 0), ("code", .jnum 111)])))
      = .apiError ∧
    get_endpoint_detail (.response 200 (some (.jobj [("ok", .jnum 0), ("code", .jnum 111)])))
      = .apiError ∧
    (set_mode "endp1" "manual" (some "home")
      (.response 200 (some (.jobj [("ok", .jnum 0), ("code", .jnum 111)])))).result = .apiError ∧
    (set_target_temperatures "endp1" 21 16 18 20
      (.response 200 (some (.jobj [("ok", .jnum 0), ("code", .jnum 111)])))).result = .apiError := by
  have h := auth_error_classification none [("ok", .jnum 0), ("code", .jnum 111)]
    "endp1" "manual" (some "home") 21 16 18 20 rfl
  exact ⟨h.1, h.2.1, h.2.2.1, h.2.2.2.1, h.2.2.2.2.1, h.2.2.2.2.2.1 rfl, h.2.2.2.2.2.2.1,
    h.2.2.2.2.2.2.2.1, h.2.2.2.2.2.2.2.2.1, h.2.2.2.2.2.2.2.2.2⟩

/-- Counterexample for C1 as stated: `get_endpoints` receiving the
bad-credential code 111 inside an `ok == 0` body on HTTP 200 raises plain
`CosaAPIError`, not `CosaAuthError`. -/
theorem get_endpoints_code111_counterexample :
    get_endpoints (.response 200 (some (.jobj [("ok", .jnum 0), ("code", .jnum 111)])))
      = .apiError ∧
    get_endpoints (.response 200 (some (.jobj [("ok", .jnum 0), ("code", .jnum 111)])))
      ≠ .authError :=
  ⟨rfl, fun h => nomatch h⟩

/-- C3 (amended): on a 200 login body that is a dict whose `ok` flag is not
`0`, if exactly one of the ten probe locations holds a string and that string
is non-empty, `login` returns it; if no location holds a string, `login`
raises `CosaAPIError`. -/
theorem login_token_extraction (fields : List (String × JValue))
    (hok : pyOptEqNum (jlookup fields "ok") 0 = false) :
    (∀ s, (tokenSlots fields).reduceOption = [s] → s ≠ "" →
      login (.response 200 (some (.jobj fields))) = .ok s) ∧
    ((tokenSlots fields).reduceOption = [] →
      login (.response 200 (some (.jobj fields))) = .apiError) := by
  constructor
  · intro s hone hne
    have hext : extractTokenObj fields = some s := by
      rw [extractTokenObj_eq_findSome]
      exact findSome?_id_of_reduceOption_singleton _ s hone
    simp [login, hok, hext, tokenOutcome, hne]
  · intro hnil
    have hext : extractTokenObj fields = none := by
      rw [extractTokenObj_eq_findSome]
      exact findSome?_id_of_reduceOption_nil _ hnil
    simp [login, hok, hext, tokenOutcome]

/-- Witness for C3: a token nested under the `data` wrapper is extracted; a
body with no token field raises `CosaAPIError`. -/
theorem login_token_extraction_witness :
    login (.response 200 (some (.jobj
      [("ok", .jnum 1), ("data", .jobj [("accessToken", .jstr "tok99")])]))) = .ok "tok99" ∧
    login (.response 200 (some (.jobj [("ok", .jnum 1)]))) = .apiError :=
  ⟨(login_token_extraction
      [("ok", .jnum 1), ("data", .jobj [("accessToken", .jstr "tok99")])] rfl).1
      "tok99" rfl (by decide),
   (login_token_extraction [("ok", .jnum 1)] rfl).2 rfl⟩

/-- Counterexample for C3 as stated: a body whose unique token field holds the
empty string — a string value — makes `login` raise `CosaAPIError` instead of
returning it (`if not token` treats `""` as missing). -/
theorem login_empty_token_counterexample :
    (tokenSlots [("token", .jstr "")]).reduceOption = [""] ∧
    login (.response 200 (some (.jobj [("token", .jstr "")]))) = .apiError ∧
    login (.response 200 (some (.jobj [("token", .jstr "")]))) ≠ .ok "" :=
  ⟨rfl, rfl, fun h => nomatch h⟩

/-- C4 (amended): a 200 `get_endpoints` dict body with `ok` not `0` and no
`endpoints` key yields the empty list; a present `endpoints` value is returned
unchanged provided it is a sized value (`len` is evaluated on it in a log
call). -/
theorem get_endpoints_defaults (fields : List (String × JValue))
    (hok : pyOptEqNum (jlookup fields "ok") 0 = false) :
    (jlookup fields "endpoints" = none →
      get_endpoints (.response 200 (some (.jobj fields))) = .ok (.jarr [])) ∧
    (∀ v n, jlookup fields "endpoints" = some v → pyLen v = some n →
      get_endpoints (.response 200 (some (.jobj fields))) = .ok v) := by
  constructor
  · intro hmiss; simp [get_endpoints, okFlagZero, hok, hmiss, pyLen]
  · intro v n hv hlen; simp [get_endpoints, okFlagZero, hok, hv, hlen]

/-- Witness for C4: a body without the `endpoints` field yields `[]`; a listed
device list is passed through. -/
theorem get_endpoints_defaults_witness :
    get_endpoints (.response 200 (some (.jobj [("ok", .jnum 1)]))) = .ok (.jarr []) ∧
    get_endpoints (.response 200 (some (.jobj
      [("endpoints", .jarr [.jobj [("id", .jstr "d1")]])])))
      = .ok (.jarr [.jobj [("id", .jstr "d1")]]) :=
  ⟨(get_endpoints_defaults [("ok", .jnum 1)] rfl).1 rfl,
   (get_endpoints_defaults [("endpoints", .jarr [.jobj [("id", .jstr "d1")]])] rfl).2
      (.jarr [.jobj [("id", .jstr "d1")]]) 1 rfl rfl⟩

/-- Counterexample for C4 as stated: an `endpoints` value with no length (a
number) is not returned unchanged — the debug log's `len(endpoints)` raises
`TypeError` first. -/
theorem get_endpoints_unsized_counterexample :
    get_endpoints (.response 200 (some (.jobj [("endpoints", .jnum 5)]))) = .crash ∧
    get_endpoints (.response 200 (some (.jobj [("endpoints", .jnum 5)]))) ≠ .ok (.jnum 5) :=
  ⟨rfl, fun h => nomatch h⟩

/-- C5: a 200 `get_endpoint_detail` dict body with `ok` not `0` yields the
value of its `endpoint` key when present, and the raw body dict otherwise. -/
theorem get_endpoint_detail_unwrap (fields : List (String × JValue))
    (hok : pyOptEqNum (jlookup fields "ok") 0 = false) :
    (∀ v, jlookup fields "endpoint" = some v →
      get_endpoint_detail (.response 200 (some (.jobj fields))) = .ok v) ∧
    (jlookup fields "endpoint" = none →
      get_endpoint_detail (.response 200 (some (.jobj fields))) = .ok (.jobj fields)) := by
  constructor
  · intro v hv; simp [get_endpoint_detail, okFlagZero, hok, hv]
  · intro hmiss; simp [get_endpoint_detail, okFlagZero, hok, hmiss]

/-- Witness for C5: a wrapped detail body is unwrapped; an unwrapped body is
returned as is. -/
theorem get_endpoint_detail_unwrap_witness :
    get_endpoint_detail (.response 200 (some (.jobj
      [("endpoint", .jobj [("id", .jstr "d1")])]))) = .ok (.jobj [("id", .jstr "d1")]) ∧
    get_endpoint_detail (.response 200 (some (.jobj [("id", .jstr "d1")])))
      = .ok (.jobj [("id", .jstr "d1")]) :=
  ⟨(get_endpoint_detail_unwrap [("endpoint", .jobj [("id", .jstr "d1")])] rfl).1
      (.jobj [("id", .jstr "d1")]) rfl,
   (get_endpoint_detail_unwrap [("id", .jstr "d1")] rfl).2 rfl⟩

/-- C6: the `set_mode` payload carries `option` exactly when the argument is
provided and non-empty, always carries the endpoint id and the mode, and a
successful call returns the boolean `True`. -/
theorem set_mode_payload (e m : String) (o : Option String) (resp : HttpResult) :
    (set_mode e m o resp).payload.lookup "option"
      = (match o with
         | some s => if s = "" then none else some (JValue.jstr s)
         | none => none) ∧
    (set_mode e m o resp).payload.lookup "endpoint" = some (.jstr e) ∧
    (set_mode e m o resp).payload.lookup "mode" = some (.jstr m) ∧
    (∀ b, (set_mode e m o resp).result = .ok b → b = true) := by
  refine ⟨?_, ?_, ?_, ?_⟩
  · rcases o with _ | s
    · rfl
    · by_cases hs : s = "" <;> simp [set_mode, hs, List.lookup]
  · rcases o with _ | s
    · rfl
    · by_cases hs : s = "" <;> simp [set_mode, hs, List.lookup]
  · rcases o with _ | s
    · rfl
    · by_cases hs : s = "" <;> simp [set_mode, hs, List.lookup]
  · intro b hb
    rcases resp with _ | ⟨status, body⟩
    · exact absurd hb (by simp [set_mode, setCallResult])
    · by_cases h4 : status = 401
      · exact absurd hb (by simp [set_mode, setCallResult, h4])
      · by_cases h2 : status = 200
        · subst h2
          rcases body with _ | data
          · exact absurd hb (by simp [set_mode, setCallResult, h4])
          · by_cases hok : okFlagZero data
            · exact absurd hb (by simp [set_mode, setCallResult, h4, hok])
            · have : (set_mode e m o (.response 200 (some data))).result = .ok true := by
                simp [set_mode, setCallResult, h4, hok]
              rw [this] at hb
              cases hb
              rfl
        · exact absurd hb (by simp [set_mode, setCallResult, h4, h2])

/-- Witness for C6: a manual-mode call with `option="home"`, and one without
an option, against a successful exchange. -/
theorem set_mode_payload_witness :
    (set_mode "endp1" "manual" (some "home")
      (.response 200 (some (.jobj [("ok", .jnum 1)])))).payload.lookup "option"
      = some (.jstr "home") ∧
    (set_mode "endp1" "auto" none
      (.response 200 (some (.jobj [("ok", .jnum 1)])))).payload.lookup "option" = none ∧
    (set_mode "endp1" "manual" (some "home")
      (.response 200 (some (.jobj [("ok", .jnum 1)])))).payload.lookup "endpoint"
      = some (.jstr "endp1") ∧
    true = true := by
  refine ⟨?_, ?_, ?_, ?_⟩
  · exact (set_mode_payload "endp1" "manual" (some "home")
      (.response 200 (some (.jobj [("ok", .jnum 1)])))).1
  · exact (set_mode_payload "endp1" "auto" none
      (.response 200 (some (.jobj [("ok", .jnum 1)])))).1
  · exact (set_mode_payload "endp1" "manual" (some "home")
      (.response 200 (some (.jobj [("ok", .jnum 1)])))).2.1
  · exact (set_mode_payload "endp1" "manual" (some "home")
      (.response 200 (some (.jobj [("ok", .jnum 1)])))).2.2.2 true rfl

/-- C7: the `set_target_temperatures` payload always groups all four
setpoints under `targetTemperatures` next to the endpoint id, and a
successful call returns the boolean `True`. -/
theorem set_target_temperatures_payload (e : String) (th ta ts tc : ℚ) (resp : HttpResult) :
    (set_target_temperatures e th ta ts tc resp).payload
      = [("endpoint", .jstr e),
         ("targetTemperatures", .jobj
           [("home", .jnum th), ("away", .jnum ta),
            ("sleep", .jnum ts), ("custom", .jnum tc)])] ∧
    (∀ b, (set_target_temperatures e th ta ts tc resp).result = .ok b → b = true) := by
  refine ⟨rfl, ?_⟩
  intro b hb
  have heq : (set_target_temperatures e th ta ts tc resp).result = setCallResult resp := rfl
  rw [heq] at hb
  rcases resp with _ | ⟨status, body⟩
  · exact absurd hb (by simp [setCallResult])
  · by_cases h4 : status = 401
    · exact absurd hb (by simp [setCallResult, h4])
    · by_cases h2 : status = 200
      · subst h2
        rcases body with _ | data
        · exact absurd hb (by simp [setCallResult, h4])
        · by_cases hok : okFlagZero data
          · exact absurd hb (by simp [setCallResult, h4, hok])
          · have : setCallResult (.response 200 (some data)) = .ok true := by
              simp [setCallResult, h4, hok]
            rw [this] at hb
            cases hb
            rfl
      · exact absurd hb (by simp [setCallResult, h4, h2])

/-- Witness for C7: a concrete call changing only the home setpoint still
posts all four values, and succeeds with `True`. -/
theorem set_target_temperatures_payload_witness :
    (set_target_temperatures "endp1" 22 16 18 20
      (.response 200 (some (.jobj [("ok", .jnum 1)])))).payload
      = [("endpoint", .jstr "endp1"),
         ("targetTemperatures", .jobj
           [("home", .jnum 22), ("away", .jnum 16),
            ("sleep", .jnum 18), ("custom", .jnum 20)])] ∧
    true = true :=
  ⟨(set_target_temperatures_payload "endp1" 22 16 18 20
      (.response 200 (some (.jobj [("ok", .jnum 1)])))).1,
   (set_target_temperatures_payload "endp1" 22 16 18 20
      (.response 200 (some (.jobj [("ok", .jnum 1)])))).2 true rfl⟩

/-- C2 (code bug): a refresh cycle never makes more than one login call; but
on the concrete failing scenario — the detail call answers 401 and the
re-login answers 200 with a valid token — the coordinator crashes with an
`AttributeError` (`CosaAPI.login` returns a `str`, on which the handler calls
`.get("ok")`) after exactly one login and one detail call, instead of storing
the new token, re-issuing the detail call and reporting `UpdateFailed` on
failure. -/
theorem coordinator_single_login :
    (∀ p d l, (async_update_data p d l).loginCalls ≤ 1) ∧
    async_update_data none (.response 401 none)
      (.response 200 (some (.jobj [("ok", .jnum 1), ("authToken", .jstr "NEWTOKEN")])))
      = ⟨.crash, 1, 1⟩ := by
  refine ⟨fun p d l => ?_, rfl⟩
  unfold async_update_data
  rcases get_endpoint_detail d with _ | _ | _ | _ <;>
    [skip; skip; exact Nat.zero_le 1; exact Nat.zero_le 1]
  · rcases p with _ | _ <;> exact Nat.zero_le 1
  · rcases login l with _ | _ | _ | _ <;> exact Nat.le_refl 1

/-- C10: `CosaAuthError` is declared as a subclass of `CosaAPIError`, so an
`except CosaAPIError` clause also catches auth failures, and in a handler list
`except CosaAuthError: ... except CosaAPIError: ...` an auth failure is
dispatched to the first clause while a plain API failure falls to the
second. -/
theorem auth_error_is_api_error :
    catches .cosaAPIError .cosaAuthError = true ∧
    catches .exceptionCls .cosaAuthError = true ∧
    first_matching_handler .cosaAuthError [.cosaAuthError, .cosaAPIError] = some 0 ∧
    first_matching_handler .cosaAPIError [.cosaAuthError, .cosaAPIError] = some 1 ∧
    first_matching_handler .cosaAuthError [.cosaAPIError] = some 0 := by
  decide

theorem except_map_ok {ε α β : Type} (f : α → β) (x : Except ε α) (b : β)
    (h : x.map f = .ok b) : ∃ a, x = .ok a ∧ f a = b := by
  cases x with
  | error e => simp [Except.map] at h
  | ok a => exact ⟨a, rfl, by simpa [Except.map] using h⟩

/-- On a record whose extraction completes, the snapshot's per-option
setpoints are the detailed four fields when `homeTemperature` is present and
the fixed defaults otherwise. -/
theorem extract_state_ok_temps (ep : List (String × JValue)) (st : EndpointState)
    (hst : extract_endpoint_state ep = .ok st) :
    st.target_temperatures
      = (if hasKey ep "homeTemperature" then
          [("home", pyGetD ep "homeTemperature" (.jnum 20)),
           ("away", pyGetD ep "awayTemperature" (.jnum 15)),
           ("sleep", pyGetD ep "sleepTemperature" (.jnum 18)),
           ("custom", pyGetD ep "customTemperature" (.jnum 20))]
         else
          [("home", .jnum 20), ("away", .jnum 15),
           ("sleep", .jnum 18), ("custom", .jnum 20)]) := by
  simp only [extract_endpoint_state] at hst
  obtain ⟨ct, hX, hrec⟩ := except_map_ok _ _ _ hst
  rw [← hrec]
  rfl

/-- C8 (amended): on a record carrying the four detailed setpoint fields the
snapshot's `target_temperatures` is exactly those values under canonical
names, and on a record lacking `homeTemperature` it is the fixed 20/15/18/20
defaults — provided extraction completes (it raises `TypeError` when the
record has no usable top-level `targetTemperature` and its `option` value is
unhashable). -/
theorem extract_state_setpoints (ep : List (String × JValue)) (st : EndpointState)
    (hst : extract_endpoint_state ep = .ok st) :
    (∀ vh va vs vc,
      jlookup ep "homeTemperature" = some vh →
      jlookup ep "awayTemperature" = some va →
      jlookup ep "sleepTemperature" = some vs →
      jlookup ep "customTemperature" = some vc →
      st.target_temperatures = [("home", vh), ("away", va), ("sleep", vs), ("custom", vc)]) ∧
    (jlookup ep "homeTemperature" = none →
      st.target_temperatures
        = [("home", .jnum 20), ("away", .jnum 15), ("sleep", .jnum 18), ("custom", .jnum 20)]) := by
  have h := extract_state_ok_temps ep st hst
  constructor
  · intro vh va vs vc h1 h2 h3 h4
    rw [h]
    simp [hasKey, pyGetD, h1, h2, h3, h4]
  · intro hmiss
    rw [h]
    simp [hasKey, hmiss]

/-- Witness for C8: a detailed record yields its own four setpoints; a
list-shaped record yields the defaults. -/
theorem extract_state_setpoints_witness :
    ({ endpoint_id := .jnull, name := .jstr "COSA Termostat", temperature := .jnull,
       humidity := .jnull, target_temperature := .jnum 21, mode := .jstr "manual",
       option := .jstr "home", combi_state := .jstr "off", is_connected := .jbool false,
       operation_mode := .jstr "heating",
       target_temperatures := [("home", .jnum 21), ("away", .jnum 16),
                               ("sleep", .jnum 18), ("custom", .jnum 22)] } :
        EndpointState).target_temperatures
      = [("home", .jnum 21), ("away", .jnum 16), ("sleep", .jnum 18), ("custom", .jnum 22)] ∧
    ({ endpoint_id := .jnull, name := .jstr "COSA Termostat", temperature := .jnull,
       humidity := .jnull, target_temperature := .jnum 20, mode := .jstr "manual",
       option := .jstr "home", combi_state := .jstr "off", is_connected := .jbool false,
       operation_mode := .jstr "heating",
       target_temperatures := [("home", .jnum 20), ("away", .jnum 15),
                               ("sleep", .jnum 18), ("custom", .jnum 20)] } :
        EndpointState).target_temperatures
      = [("home", .jnum 20), ("away", .jnum 15), ("sleep", .jnum 18), ("custom", .jnum 20)] :=
  ⟨(extract_state_setpoints
      [("homeTemperature", .jnum 21), ("awayTemperature", .jnum 16),
       ("sleepTemperature", .jnum 18), ("customTemperature", .jnum 22),
       ("targetTemperature", .jnum 21)] _ rfl).1
      (.jnum 21) (.jnum 16) (.jnum 18) (.jnum 22) rfl rfl rfl rfl,
   (extract_state_setpoints [("targetTemperature", .jnum 20)] _ rfl).2 rfl⟩

/-- Counterexample for C8 as stated: a record with all four detailed setpoint
fields but an unhashable `option` and no top-level `targetTemperature` makes
`extract_endpoint_state` raise `TypeError` instead of producing the four
setpoints. -/
theorem extract_state_setpoints_counterexample :
    extract_endpoint_state
      [("homeTemperature", .jnum 21), ("awayTemperature", .jnum 16),
       ("sleepTemperature", .jnum 18), ("customTemperature", .jnum 20),
       ("option", .jobj [])] = .error () ∧
    (extract_endpoint_state
      [("homeTemperature", .jnum 21), ("awayTemperature", .jnum 16),
       ("sleepTemperature", .jnum 18), ("customTemperature", .jnum 20),
       ("option", .jobj [])]).map (fun st => st.target_temperatures)
      ≠ .ok [("home", .jnum 21), ("away", .jnum 16), ("sleep", .jnum 18), ("custom", .jnum 20)] :=
  ⟨rfl, fun h => nomatch h⟩

/-- C9 (amended): the snapshot's `target_temperature` is the record's
top-level `targetTemperature` when present and not `None`; otherwise it is the
setpoint named by the record's current string `option`, defaulting to 20.0
when (as for `"frozen"`) it names no setpoint — provided extraction completes
(an unhashable `option` raises `TypeError` in that fallback). -/
theorem extract_state_target_temperature (ep : List (String × JValue)) (st : EndpointState)
    (hst : extract_endpoint_state ep = .ok st) :
    (∀ v, jlookup ep "targetTemperature" = some v → v.isNull = false →
      st.target_temperature = v) ∧
    ((pyGet ep "targetTemperature").isNull = true →
      ∀ s, pyGetD ep "option" (.jstr "home") = .jstr s →
        st.target_temperature = (jlookup st.target_temperatures s).getD (.jnum 20)) ∧
    ((pyGet ep "targetTemperature").isNull = true →
      pyGetD ep "option" (.jstr "home") = .jstr "frozen" →
      st.target_temperature = .jnum 20) := by
  simp only [extract_endpoint_state] at hst
  obtain ⟨ct, hX, hrec⟩ := except_map_ok _ _ _ hst
  subst hrec
  refine ⟨?_, ?_, ?_⟩
  · intro v hv hnn
    rw [show pyGet ep "targetTemperature" = v from by simp [pyGet, hv], hnn] at hX
    simp only [Bool.false_eq_true, if_false, Except.ok.injEq] at hX
    show ct = v
    exact hX.symm
  · intro hnull s hs
    rw [hnull, hs] at hX
    simp only [if_true, pyDictGetKey, Except.ok.injEq] at hX
    show ct = _
    rw [← hX]
    rfl
  · intro hnull hs
    rw [hnull, hs] at hX
    simp only [if_true, pyDictGetKey, Except.ok.injEq] at hX
    show ct = .jnum 20
    rw [← hX]
    by_cases hk : hasKey ep "homeTemperature" <;> simp [hk, jlookup, List.lookup]

/-- Witness for C9: an explicit top-level target wins; otherwise the setpoint
named by `option` is used; `"frozen"` falls back to 20.0. -/
theorem extract_state_target_temperature_witness :
    ({ endpoint_id := .jnull, name := .jstr "COSA Termostat", temperature := .jnull,
       humidity := .jnull, target_temperature := .jnum 23, mode := .jstr "manual",
       option := .jstr "frozen", combi_state := .jstr "off", is_connected := .jbool false,
       operation_mode := .jstr "heating",
       target_temperatures := [("home", .jnum 20), ("away", .jnum 15),
                               ("sleep", .jnum 18), ("custom", .jnum 20)] } :
        EndpointState).target_temperature = .jnum 23 ∧
    ({ endpoint_id := .jnull, name := .jstr "COSA Termostat", temperature := .jnull,
       humidity := .jnull, target_temperature := .jnum 18, mode := .jstr "manual",
       option := .jstr "sleep", combi_state := .jstr "off", is_connected := .jbool false,
       operation_mode := .jstr "heating",
       target_temperatures := [("home", .jnum 20), ("away", .jnum 15),
                               ("sleep", .jnum 18), ("custom", .jnum 20)] } :
        EndpointState).target_temperature
      = (jlookup [("home", JValue.jnum 20), ("away", JValue.jnum 15),
                  ("sleep", JValue.jnum 18), ("custom", JValue.jnum 20)] "sleep").getD (.jnum 20) ∧
    ({ endpoint_id := .jnull, name := .jstr "COSA Termostat", temperature := .jnull,
       humidity := .jnull, target_temperature := .jnum 20, mode := .jstr "manual",
       option := .jstr "frozen", combi_state := .jstr "off", is_connected := .jbool false,
       operation_mode := .jstr "heating",
       target_temperatures := [("home", .jnum 20), ("away", .jnum 15),
                               ("sleep", .jnum 18), ("custom", .jnum 20)] } :
        EndpointState).target_temperature = .jnum 20 :=
  ⟨(extract_state_target_temperature
      [("targetTemperature", .jnum 23), ("option", .jstr "frozen")] _ rfl).1
      (.jnum 23) rfl rfl,
   (extract_state_target_temperature [("option", .jstr "sleep")] _ rfl).2.1 rfl "sleep" rfl,
   (extract_state_target_temperature [("option", .jstr "frozen")] _ rfl).2.2 rfl rfl⟩

/-- Counterexample for C9 as stated: a record whose `option` is a list (which
names no setpoint) and which has no top-level `targetTemperature` does not
yield the 20.0 default — `extract_endpoint_state` raises `TypeError`, because
`dict.get` hashes the unhashable `option` key. -/
theorem extract_state_target_temperature_counterexample :
    extract_endpoint_state [("option", .jarr [])] = .error () ∧
    (extract_endpoint_state [("option", .jarr [])]).map (fun st => st.target_temperature)
      ≠ .ok (.jnum 20) :=
  ⟨rfl, fun h => nomatch h⟩

end Cosa
